import Mathlib

/-!
Verification of the browser-side interaction layer of the gene-ontology
browser: the row filter engine (static/js/gene_detail.js), the two
debounced autocomplete dispatchers (static/js/autocomplete.js), and the
form mode controller (static/js/similarity.js).

Each JavaScript function is shallowly embedded as a pure Lean function.
DOM reads become explicit arguments, DOM writes become explicit record
fields, and an uncaught JavaScript exception (a dereference of a `null`
returned by `getElementById` / `querySelector`) is modelled by an
`Option` result whose `none` means "throws".
-/

namespace GeneDetail

/-- A row of the annotations table: the two classification attributes the
filter reads (`data-aspect` and `data-evidence`). -/
structure AnnotationRow where
  aspect : String
  evidence : String
  deriving DecidableEq, Repr

/-- `const experimental = [...]` in `filterAnnotations`. -/
def experimental : List String :=
  ["EXP", "IDA", "IPI", "IMP", "IGI", "IEP", "HTP", "HDA", "HMP", "HGI", "HEP"]

/-- `const computational = [...]` in `filterAnnotations`. -/
def computational : List String :=
  ["ISS", "ISO", "ISA", "ISM", "IGC", "RCA"]

/-- `const electronic = ['IEA']` in `filterAnnotations`. -/
def electronic : List String :=
  ["IEA"]

/-- `aspectMatch = (aspect === 'all' || rowAspect === aspect)`. -/
def aspectMatch (aspect : String) (row : AnnotationRow) : Bool :=
  aspect == "all" || row.aspect == aspect

/-- The `evidenceMatch` if/else chain of `filterAnnotations`: starts at
`false` and is only set by one of the five recognised selector values. -/
def evidenceMatch (evidenceType : String) (row : AnnotationRow) : Bool :=
  if evidenceType == "all" then true
  else if evidenceType == "EXP" then experimental.contains row.evidence
  else if evidenceType == "COMP" then computational.contains row.evidence
  else if evidenceType == "IEA" then electronic.contains row.evidence
  else if evidenceType == "OTHER" then
    !experimental.contains row.evidence &&
      !computational.contains row.evidence &&
      !electronic.contains row.evidence
  else false

/-- `aspectMatch && evidenceMatch`: whether `filterAnnotations` leaves the
row displayed. -/
def rowVisible (aspect evidenceType : String) (row : AnnotationRow) : Bool :=
  aspectMatch aspect row && evidenceMatch evidenceType row

/-- The `rows.forEach` loop: accumulates each row's display flag (`true`
for `row.style.display = ''`, `false` for `'none'`) and the running
`visibleCount`. -/
def filterLoop (aspect evidenceType : String) (rows : List AnnotationRow) :
    List Bool × Nat :=
  rows.foldl
    (fun acc row =>
      if rowVisible aspect evidenceType row then (acc.1 ++ [true], acc.2 + 1)
      else (acc.1 ++ [false], acc.2))
    ([], 0)

/-- The observable outcome of one run of `filterAnnotations`: the display
flag of each row, the final `visibleCount`, and the badge text. -/
structure FilterResult where
  display : List Bool
  count : Nat
  badge : String
  deriving DecidableEq, Repr

/-- `filterAnnotations`, given the two selector values and the table rows:
runs the `forEach` loop and writes ``Showing ${visibleCount} terms`` to the
count badge. -/
def filterAnnotations (aspect evidenceType : String)
    (rows : List AnnotationRow) : FilterResult :=
  let r := filterLoop aspect evidenceType rows
  { display := r.1
    count := r.2
    badge := "Showing " ++ toString r.2 ++ " terms" }

/-- The four evidence categories the spec's classifier enumerates, induced
by the three code lists and the `OTHER` branch of `filterAnnotations`. -/
inductive EvidenceCategory where
  | Experimental
  | Computational
  | Electronic
  | Other
  deriving DecidableEq, Repr

/-- The classification of an evidence code induced by the three code lists
of `filterAnnotations` (the `OTHER` branch catches codes in none of them). -/
def classifyEvidence (code : String) : EvidenceCategory :=
  if experimental.contains code then .Experimental
  else if computational.contains code then .Computational
  else if electronic.contains code then .Electronic
  else .Other

/-- `filterAnnotations` as actually invoked against the page: the two
selects are read with `getElementById(...).value` and the badge is written
with `getElementById(...).innerText`, none of them null-guarded, so a
missing select or badge makes the function throw a `TypeError`, modelled
as `none`. A missing table only makes `querySelectorAll` return an empty
collection (`rows = []`), which does not throw. -/
def filterAnnotationsDom (aspectSel evidenceSel : Option String)
    (rows : List AnnotationRow) (badgePresent : Bool) : Option FilterResult :=
  match aspectSel with
  | none => none
  | some aspect =>
    match evidenceSel with
    | none => none
    | some evidenceType =>
      if badgePresent then some (filterAnnotations aspect evidenceType rows)
      else none

end GeneDetail

namespace Autocomplete

/-- A `{ id, name, namespace }` record from `/api/search-terms`
(`namespace` is a Lean keyword, hence `ns`). -/
structure TermSuggestion where
  id : String
  name : String
  ns : String
  deriving DecidableEq, Repr

/-- A `{ symbol, name }` record from `/api/search-genes`. -/
structure GeneSuggestion where
  symbol : String
  name : String
  deriving DecidableEq, Repr

/-- Contents of a results container (`innerHTML`): cleared (`''`), a list
of rendered selectable entries, or the literal no-results placeholder. -/
inductive Results (α : Type) where
  | cleared
  | entries (items : List α)
  | noResults
  deriving DecidableEq, Repr

/-- State owned by one term-autocomplete instance: the query input's
value, the hidden id input's value, the results container, and the pending
debounce timer together with the query text its callback captured. -/
structure TermWidget where
  queryValue : String
  idValue : String
  results : Results TermSuggestion
  timer : Option String
  deriving DecidableEq, Repr

/-- State owned by one gene-autocomplete instance (no identifier sink). -/
structure GeneWidget where
  queryValue : String
  results : Results GeneSuggestion
  timer : Option String
  deriving DecidableEq, Repr

/-- The `input` listener of `setupTermAutocomplete`, run after the input's
value has become `query`: `clearTimeout`, clear the hidden id, and either
clear the results (length < 3) or schedule a debounce timer capturing
`query`. The second component lists the network requests issued
synchronously by the handler — always none, the fetch lives in the timer
callback. -/
def termInputEvent (w : TermWidget) (query : String) :
    TermWidget × List String :=
  let w := { w with queryValue := query, timer := none, idValue := "" }
  if query.length < 3 then ({ w with results := .cleared }, [])
  else ({ w with timer := some query }, [])

/-- The debounce timer firing for a term widget: one
`fetch('/api/search-terms?q=' + encodeURIComponent(query))` for the
captured query. `enc` is the platform's `encodeURIComponent`. -/
def termTimerFire (enc : String → String) (w : TermWidget) :
    TermWidget × List String :=
  match w.timer with
  | none => (w, [])
  | some q => ({ w with timer := none }, ["/api/search-terms?q=" ++ enc q])

/-- The `.then(data => ...)` render step: clear the container, then one
anchor per result in server order, or the no-results placeholder. -/
def termRenderResponse (w : TermWidget) (resp : List TermSuggestion) :
    TermWidget :=
  if resp.length > 0 then { w with results := .entries resp }
  else { w with results := .noResults }

/-- The click listener attached to a rendered term entry:
``queryInput.value = `${term.id} - ${term.name}`; idInput.value = term.id;
resultsContainer.innerHTML = ''``. -/
def termSelect (w : TermWidget) (t : TermSuggestion) : TermWidget :=
  { w with
    queryValue := t.id ++ " - " ++ t.name
    idValue := t.id
    results := .cleared }

/-- The `input` listener of `setupGeneAutocomplete` (minimum length 2, no
identifier sink). -/
def geneInputEvent (w : GeneWidget) (query : String) :
    GeneWidget × List String :=
  let w := { w with queryValue := query, timer := none }
  if query.length < 2 then ({ w with results := .cleared }, [])
  else ({ w with timer := some query }, [])

/-- The debounce timer firing for a gene widget. -/
def geneTimerFire (enc : String → String) (w : GeneWidget) :
    GeneWidget × List String :=
  match w.timer with
  | none => (w, [])
  | some q => ({ w with timer := none }, ["/api/search-genes?q=" ++ enc q])

/-- The click listener attached to a rendered gene entry:
`queryInput.value = gene.symbol; resultsContainer.innerHTML = ''` — there
is no identifier sink to set. -/
def geneSelect (w : GeneWidget) (g : GeneSuggestion) : GeneWidget :=
  { w with queryValue := g.symbol, results := .cleared }

/-- A burst of input events processed back to back, no timer firing in
between (all within one debounce window); accumulates the requests issued
by the handlers themselves. -/
def termBurst (w : TermWidget) (queries : List String) :
    TermWidget × List String :=
  queries.foldl
    (fun acc q =>
      let r := termInputEvent acc.1 q
      (r.1, acc.2 ++ r.2))
    (w, [])

/-- Outcome of calling a setup function: either the guard returned early
or the listeners were attached. -/
inductive SetupOutcome where
  | noop
  | attached
  deriving DecidableEq, Repr

/-- `setupTermAutocomplete`'s element lookup and guard, with one presence
flag per `getElementById`: `if (!queryInput || !idInput ||
!resultsContainer) return;`. Always `some` — the guard makes the function
total, it never dereferences a missing element. -/
def setupTermAutocomplete (queryInput idInput resultsContainer : Bool) :
    Option SetupOutcome :=
  if queryInput && idInput && resultsContainer then some .attached
  else some .noop

/-- `setupGeneAutocomplete`'s element lookup and guard. -/
def setupGeneAutocomplete (queryInput resultsContainer : Bool) :
    Option SetupOutcome :=
  if queryInput && resultsContainer then some .attached
  else some .noop

end Autocomplete

namespace Similarity

/-- The three values of the `mode` radio group. -/
inductive FormMode where
  | term
  | gene
  | matrix
  deriving DecidableEq, Repr

/-- The DOM state `updateFormVisibility` manipulates: the `hidden` class
on the three input-group containers and the `required` attribute on the
term text inputs, the gene text inputs, and the gene-list input. -/
structure ModeForm where
  termHidden : Bool
  geneHidden : Bool
  matrixHidden : Bool
  termRequired : Bool
  geneRequired : Bool
  geneListRequired : Bool
  deriving DecidableEq, Repr

/-- `updateFormVisibility`, called with the term and gene containers
present (the surrounding `DOMContentLoaded` guard returned otherwise).
`checkedMode` is `document.querySelector('input[name="mode"]:checked')`;
the code reads `.value` on it with no null check, so `none` (no radio
checked) throws a `TypeError`, modelled as result `none`. Likewise
`document.getElementById('matrix-inputs').classList` is not null-guarded,
so an absent matrix container throws; the gene-list input lookup is
guarded (`if (geneListInput)`). -/
def updateFormVisibility (checkedMode : Option FormMode)
    (matrixPresent geneListPresent : Bool) (f : ModeForm) : Option ModeForm :=
  match checkedMode with
  | none => none
  | some mode =>
    if matrixPresent then
      let f := { f with
        termHidden := true
        geneHidden := true
        matrixHidden := true
        termRequired := false
        geneRequired := false
        geneListRequired := if geneListPresent then false else f.geneListRequired }
      match mode with
      | .term => some { f with termHidden := false, termRequired := true }
      | .gene => some { f with geneHidden := false, geneRequired := true }
      | .matrix => some { f with
          matrixHidden := false
          geneListRequired := if geneListPresent then true else f.geneListRequired }
    else none

/-- The `DOMContentLoaded` handler: look up the term and gene containers,
return silently if either is missing, otherwise run the initial
`updateFormVisibility`. -/
def modeControllerInit (termPresent genePresent matrixPresent geneListPresent : Bool)
    (checkedMode : Option FormMode) (f : ModeForm) : Option ModeForm :=
  if termPresent && genePresent then
    updateFormVisibility checkedMode matrixPresent geneListPresent f
  else some f

/-- The four field values the submit listener touches: the two hidden id
inputs and the two visible query inputs. -/
structure SubmitFields where
  term_a_id : String
  term_b_id : String
  term_a_query : String
  term_b_query : String
  deriving DecidableEq, Repr

/-- The form `submit` listener: return if no mode radio is checked
(`if (!selectedModeInput) return;`); in term mode, copy each query text
into its id field when that id field is empty (`!termAIdInput.value` —
the empty string is the only falsy string value). -/
def submitHandler (checkedMode : Option FormMode) (f : SubmitFields) :
    SubmitFields :=
  match checkedMode with
  | none => f
  | some mode =>
    match mode with
    | .term =>
      let f1 := if f.term_a_id == "" then { f with term_a_id := f.term_a_query } else f
      if f1.term_b_id == "" then { f1 with term_b_id := f1.term_b_query } else f1
    | .gene => f
    | .matrix => f

end Similarity

namespace GeneDetail

/-- The `forEach` loop of `filterAnnotations`, generalized over the
accumulator: the display flags are the per-row visibility values in order
and the counter counts the rows whose predicate holds. -/
theorem filterLoop_general (aspect evidenceType : String)
    (rows : List AnnotationRow) :
    ∀ (acc : List Bool) (n : Nat),
      rows.foldl
        (fun acc row =>
          if rowVisible aspect evidenceType row then (acc.1 ++ [true], acc.2 + 1)
          else (acc.1 ++ [false], acc.2))
        (acc, n)
      = (acc ++ rows.map (rowVisible aspect evidenceType),
         n + rows.countP (rowVisible aspect evidenceType)) := by
  induction rows with
  | nil => intro acc n; simp
  | cons r rs ih =>
    intro acc n
    by_cases h : rowVisible aspect evidenceType r
    · simp [List.foldl_cons, ih, List.countP_cons, h]
      omega
    · simp [List.foldl_cons, ih, List.countP_cons, h]

/-- Characterization of `filterLoop`: display flags are the mapped
visibility predicate, the counter is `countP` of the predicate. -/
theorem filterLoop_eq (aspect evidenceType : String) (rows : List AnnotationRow) :
    filterLoop aspect evidenceType rows
      = (rows.map (rowVisible aspect evidenceType),
         rows.countP (rowVisible aspect evidenceType)) := by
  simpa [filterLoop] using filterLoop_general aspect evidenceType rows [] 0

/-- Each code of `computational` is absent from `experimental`. -/
theorem comp_not_exp : ∀ c ∈ computational, c ∉ experimental := by
  intro c hc
  fin_cases hc <;> decide

/-- Each code of `electronic` is absent from `experimental`. -/
theorem elec_not_exp : ∀ c ∈ electronic, c ∉ experimental := by
  intro c hc
  fin_cases hc <;> decide

/-- Each code of `electronic` is absent from `computational`. -/
theorem elec_not_comp : ∀ c ∈ electronic, c ∉ computational := by
  intro c hc
  fin_cases hc <;> decide

/-- Claim C1: for every annotation row and every selector pair with
`evidenceType` among the five documented values, the row is visible if and
only if the aspect matches (`"all"` or equal) and the evidence matches
(`"all"`; or the code lies in the experimental / computational / electronic
set for `"EXP"` / `"COMP"` / `"IEA"`; or, for `"OTHER"`, in none of the
three sets). -/
theorem rowVisible_iff (aspect evidenceType : String) (row : AnnotationRow)
    (h : evidenceType ∈ (["all", "EXP", "COMP", "IEA", "OTHER"] : List String)) :
    rowVisible aspect evidenceType row = true ↔
      ((aspect = "all" ∨ row.aspect = aspect) ∧
        (evidenceType = "all" ∨
          (evidenceType = "EXP" ∧ row.evidence ∈ experimental) ∨
          (evidenceType = "COMP" ∧ row.evidence ∈ computational) ∨
          (evidenceType = "IEA" ∧ row.evidence ∈ electronic) ∨
          (evidenceType = "OTHER" ∧ row.evidence ∉ experimental ∧
            row.evidence ∉ computational ∧ row.evidence ∉ electronic))) := by
  simp only [List.mem_cons, List.not_mem_nil, or_false] at h
  rcases h with rfl | rfl | rfl | rfl | rfl <;>
    simp [rowVisible, aspectMatch, evidenceMatch, and_assoc]

/-- Witness for `rowVisible_iff`: selector pair (`"all"`, `"EXP"`) on the
row (`"BP"`, `"IDA"`) — the experimental code `IDA` makes the row visible. -/
theorem rowVisible_iff_witness :
    rowVisible "all" "EXP" ⟨"BP", "IDA"⟩ = true :=
  (rowVisible_iff "all" "EXP" ⟨"BP", "IDA"⟩ (by decide)).mpr (by decide)

/-- Claim C2: after a run of `filterAnnotations`, the published count
equals the number of rows whose visibility predicate is true (equivalently
the number of `true` display flags), and the badge is the literal string
`"Showing N terms"` for that count `N`. -/
theorem filterAnnotations_count_badge (aspect evidenceType : String)
    (rows : List AnnotationRow) :
    (filterAnnotations aspect evidenceType rows).count
        = rows.countP (fun row => rowVisible aspect evidenceType row)
    ∧ (filterAnnotations aspect evidenceType rows).display
        = rows.map (fun row => rowVisible aspect evidenceType row)
    ∧ (filterAnnotations aspect evidenceType rows).count
        = (filterAnnotations aspect evidenceType rows).display.count true
    ∧ (filterAnnotations aspect evidenceType rows).badge
        = "Showing "
            ++ toString (rows.countP (fun row => rowVisible aspect evidenceType row))
            ++ " terms" := by
  refine ⟨?_, ?_, ?_, ?_⟩ <;>
    simp [filterAnnotations, filterLoop_eq, List.count_eq_countP] <;> rfl

/-- Claim C3: the evidence classification is a total, disjoint partition:
each category holds exactly the codes of its list, a code outside all
three lists (such as `"ZZZ"`) is `Other`, and since `classifyEvidence` is
a function, every code lands in exactly one category. -/
theorem classifyEvidence_partition (code : String) :
    (classifyEvidence code = .Experimental ↔ code ∈ experimental) ∧
    (classifyEvidence code = .Computational ↔ code ∈ computational) ∧
    (classifyEvidence code = .Electronic ↔ code ∈ electronic) ∧
    (classifyEvidence code = .Other ↔
      (code ∉ experimental ∧ code ∉ computational ∧ code ∉ electronic)) ∧
    classifyEvidence "ZZZ" = .Other := by
  refine ⟨?_, ?_, ?_, ?_, by decide⟩ <;>
  · by_cases h1 : code ∈ experimental
    · have h2 : code ∉ computational := fun hc => comp_not_exp code hc h1
      have h3 : code ∉ electronic := fun hc => elec_not_exp code hc h1
      simp [classifyEvidence, h1, h2, h3]
    · by_cases h2 : code ∈ computational
      · have h3 : code ∉ electronic := fun hc => elec_not_comp code hc h2
        simp [classifyEvidence, h1, h2, h3]
      · by_cases h3 : code ∈ electronic
        · simp [classifyEvidence, h1, h2, h3]
        · simp [classifyEvidence, h1, h2, h3]

/-- Claim C10: for any `evidenceType` outside the five documented values,
`evidenceMatch` stays `false` (no branch of the if/else chain fires), so
every row is hidden and the badge reads `"Showing 0 terms"`. -/
theorem unknownEvidenceType_hides_all (aspect evidenceType : String)
    (rows : List AnnotationRow)
    (h : evidenceType ∉ (["all", "EXP", "COMP", "IEA", "OTHER"] : List String)) :
    (filterAnnotations aspect evidenceType rows).count = 0
    ∧ (filterAnnotations aspect evidenceType rows).badge = "Showing 0 terms"
    ∧ ∀ b ∈ (filterAnnotations aspect evidenceType rows).display, b = false := by
  simp only [List.mem_cons, List.not_mem_nil, or_false, not_or] at h
  obtain ⟨h1, h2, h3, h4, h5⟩ := h
  have hev : ∀ row, evidenceMatch evidenceType row = false := by
    intro row
    simp [evidenceMatch, h1, h2, h3, h4, h5]
  have hvis : ∀ row, rowVisible aspect evidenceType row = false := by
    intro row
    simp [rowVisible, hev row]
  refine ⟨?_, ?_, ?_⟩
  · simp [filterAnnotations, filterLoop_eq, List.countP_eq_zero]
    intro row _
    simp [hvis row]
  · have : rows.countP (rowVisible aspect evidenceType) = 0 := by
      simp [List.countP_eq_zero]
      intro row _
      simp [hvis row]
    simp only [filterAnnotations, filterLoop_eq, this]
    rfl
  · simp only [filterAnnotations, filterLoop_eq, List.mem_map]
    rintro b ⟨row, _, hrow⟩
    rw [← hrow, hvis row]

/-- Witness for `unknownEvidenceType_hides_all`: the selector value
`"BOGUS"` hides the experimental row (`"BP"`, `"IDA"`) and zeroes the
badge. -/
theorem unknownEvidenceType_hides_all_witness :
    (filterAnnotations "all" "BOGUS" [⟨"BP", "IDA"⟩]).count = 0
    ∧ (filterAnnotations "all" "BOGUS" [⟨"BP", "IDA"⟩]).badge
        = "Showing 0 terms" :=
  ⟨(unknownEvidenceType_hides_all "all" "BOGUS" [⟨"BP", "IDA"⟩] (by decide)).1,
   (unknownEvidenceType_hides_all "all" "BOGUS" [⟨"BP", "IDA"⟩] (by decide)).2.1⟩

end GeneDetail

namespace Autocomplete

/-- Claim C4: an input event whose query is below the instance's minimum
length (3 for terms, 2 for genes) clears the results sink immediately,
schedules no debounce timer, and issues no network request. -/
theorem shortQuery_noop :
    (∀ (w : TermWidget) (q : String), q.length < 3 →
      termInputEvent w q
        = ({ queryValue := q, idValue := "", results := .cleared, timer := none }, []))
    ∧ (∀ (w : GeneWidget) (q : String), q.length < 2 →
      geneInputEvent w q
        = ({ queryValue := q, results := .cleared, timer := none }, [])) := by
  constructor
  · intro w q h
    simp [termInputEvent, h]
  · intro w q h
    simp [geneInputEvent, h]

/-- Witness for `shortQuery_noop`: the two-character term query `"ab"` and
the one-character gene query `"a"`. -/
theorem shortQuery_noop_witness :
    termInputEvent ⟨"old", "GO:1", .noResults, some "abc"⟩ "ab"
      = ({ queryValue := "ab", idValue := "", results := .cleared, timer := none }, [])
    ∧ geneInputEvent ⟨"old", .noResults, some "xy"⟩ "a"
      = ({ queryValue := "a", results := .cleared, timer := none }, []) :=
  ⟨shortQuery_noop.1 ⟨"old", "GO:1", .noResults, some "abc"⟩ "ab" (by decide),
   shortQuery_noop.2 ⟨"old", .noResults, some "xy"⟩ "a" (by decide)⟩

/-- Splitting a burst at its last event. -/
theorem termBurst_append (w : TermWidget) (qs : List String) (q : String) :
    termBurst w (qs ++ [q])
      = ((termInputEvent (termBurst w qs).1 q).1,
         (termBurst w qs).2 ++ (termInputEvent (termBurst w qs).1 q).2) := by
  simp [termBurst, List.foldl_append]

/-- Input handlers never issue a request themselves: the fetch lives in
the debounce timer callback. -/
theorem termBurst_no_requests (qs : List String) :
    ∀ w : TermWidget, (termBurst w qs).2 = [] := by
  induction qs with
  | nil => intro w; simp [termBurst]
  | cons q qs ih =>
    intro w
    have : termBurst w (q :: qs)
        = termBurst (termInputEvent w q).1 qs := by
      simp [termBurst, List.foldl_cons, termInputEvent]
      by_cases h : q.length < 3 <;> simp [h]
    rw [this]
    exact ih _

/-- Claim C5: a rapid burst of input events inside one debounce window
(each query at or above the minimum length) issues no request during the
burst, leaves exactly the last event's lookup scheduled (each event
cancels the previous timer), and the single timer expiry issues exactly
one request carrying the URL-encoded (`enc`) value of the last query; a
further expiry issues nothing. -/
theorem debouncedBurst_single_request (enc : String → String) (w : TermWidget)
    (qs : List String) (q : String)
    (h : ∀ x ∈ qs ++ [q], 3 ≤ x.length) :
    (termBurst w (qs ++ [q])).2 = []
    ∧ (termBurst w (qs ++ [q])).1.timer = some q
    ∧ (termBurst w (qs ++ [q])).2
        ++ (termTimerFire enc (termBurst w (qs ++ [q])).1).2
      = ["/api/search-terms?q=" ++ enc q]
    ∧ (termTimerFire enc (termTimerFire enc (termBurst w (qs ++ [q])).1).1).2
      = [] := by
  have hq : ¬ q.length < 3 := by
    have := h q (by simp)
    omega
  have hb := termBurst_append w qs q
  have hnr := termBurst_no_requests (qs ++ [q]) w
  have hev : termInputEvent (termBurst w qs).1 q
      = ({ queryValue := q, idValue := "", results := (termBurst w qs).1.results,
           timer := some q }, []) := by
    simp [termInputEvent, hq]
  refine ⟨hnr, ?_, ?_, ?_⟩
  · rw [hb, hev]
  · rw [hnr, hb, hev]
    simp [termTimerFire]
  · rw [hb, hev]
    simp [termTimerFire]

/-- Witness for `debouncedBurst_single_request`: the burst `"abc"`,
`"abcd"` with the identity as the encoding function. -/
theorem debouncedBurst_single_request_witness :
    (termBurst ⟨"", "", .cleared, none⟩ (["abc"] ++ ["abcd"])).2 = []
    ∧ (termBurst ⟨"", "", .cleared, none⟩ (["abc"] ++ ["abcd"])).1.timer
        = some "abcd"
    ∧ (termBurst ⟨"", "", .cleared, none⟩ (["abc"] ++ ["abcd"])).2
        ++ (termTimerFire (fun s => s)
              (termBurst ⟨"", "", .cleared, none⟩ (["abc"] ++ ["abcd"])).1).2
      = ["/api/search-terms?q=" ++ "abcd"]
    ∧ (termTimerFire (fun s => s)
        (termTimerFire (fun s => s)
          (termBurst ⟨"", "", .cleared, none⟩ (["abc"] ++ ["abcd"])).1).1).2
      = [] :=
  debouncedBurst_single_request (fun s => s) ⟨"", "", .cleared, none⟩
    ["abc"] "abcd" (by decide)

/-- Claim C8: selecting a rendered term entry sets the query field to the
canonical `"<id> - <name>"` display string, the identifier sink to exactly
the entry's id (e.g. `"GO:0008150"`), and clears the results sink;
selecting a gene entry sets the query field to the symbol and clears the
results sink — the gene widget has no identifier sink to set. -/
theorem select_spec :
    (∀ (w : TermWidget) (t : TermSuggestion),
      termSelect w t
        = { queryValue := t.id ++ " - " ++ t.name, idValue := t.id,
            results := .cleared, timer := w.timer })
    ∧ (∀ (w : TermWidget) (name ns : String),
      (termSelect w ⟨"GO:0008150", name, ns⟩).idValue = "GO:0008150"
        ∧ (termSelect w ⟨"GO:0008150", name, ns⟩).results = .cleared)
    ∧ (∀ (w : GeneWidget) (g : GeneSuggestion),
      geneSelect w g
        = { queryValue := g.symbol, results := .cleared, timer := w.timer }) :=
  ⟨fun w t => rfl, fun w name ns => ⟨rfl, rfl⟩, fun w g => rfl⟩

end Autocomplete

namespace Similarity

/-- Counterexample to claim C6: with no mode radio checked,
`updateFormVisibility` does not silently no-op — it dereferences the
`null` returned by `querySelector('input[name="mode"]:checked')` and
throws a `TypeError` (result `none` in the embedding), here on a page with
all containers present and a fully unset form. -/
theorem updateFormVisibility_throws_on_unchecked :
    updateFormVisibility none true true
      ⟨false, false, false, false, false, false⟩ = none := rfl

/-- Claim C6 amended: with no mode radio checked, the submit-time guard
silently takes no action (it checks `!selectedModeInput` before reading
`.value`), but the visibility/required update always throws. -/
theorem uncheckedMode_submit_noop_visibility_throws :
    (∀ f : SubmitFields, submitHandler none f = f)
    ∧ (∀ (mp glp : Bool) (g : ModeForm),
        updateFormVisibility none mp glp g = none) :=
  ⟨fun f => rfl, fun mp glp g => rfl⟩

/-- Claim C9: at submit time in Term mode, each of the two id fields is
set to its query field's raw text exactly when it was empty and left
unchanged otherwise, and the query fields are untouched; in Gene or
Matrix mode the handler changes nothing. -/
theorem submitHandler_spec (f : SubmitFields) :
    ((f.term_a_id = "" →
        (submitHandler (some .term) f).term_a_id = f.term_a_query)
    ∧ (f.term_a_id ≠ "" →
        (submitHandler (some .term) f).term_a_id = f.term_a_id)
    ∧ (f.term_b_id = "" →
        (submitHandler (some .term) f).term_b_id = f.term_b_query)
    ∧ (f.term_b_id ≠ "" →
        (submitHandler (some .term) f).term_b_id = f.term_b_id)
    ∧ (submitHandler (some .term) f).term_a_query = f.term_a_query
    ∧ (submitHandler (some .term) f).term_b_query = f.term_b_query)
    ∧ submitHandler (some .gene) f = f
    ∧ submitHandler (some .matrix) f = f := by
  refine ⟨⟨?_, ?_, ?_, ?_, ?_, ?_⟩, rfl, rfl⟩ <;>
  · intros
    by_cases ha : f.term_a_id = "" <;> by_cases hb : f.term_b_id = "" <;>
      simp_all [submitHandler]

/-- Witness for `submitHandler_spec`: an empty first id field is filled
from its query text, a non-empty second id field is kept, and Gene mode
changes nothing. -/
theorem submitHandler_spec_witness :
    (submitHandler (some .term)
        (⟨"", "GO:2", "qa", "qb"⟩ : SubmitFields)).term_a_id = "qa"
    ∧ (submitHandler (some .term)
        (⟨"", "GO:2", "qa", "qb"⟩ : SubmitFields)).term_b_id = "GO:2"
    ∧ submitHandler (some .gene) (⟨"", "GO:2", "qa", "qb"⟩ : SubmitFields)
        = (⟨"", "GO:2", "qa", "qb"⟩ : SubmitFields) :=
  ⟨(submitHandler_spec ⟨"", "GO:2", "qa", "qb"⟩).1.1 rfl,
   (submitHandler_spec ⟨"", "GO:2", "qa", "qb"⟩).1.2.2.2.1 (by decide),
   (submitHandler_spec ⟨"", "GO:2", "qa", "qb"⟩).2.1⟩

end Similarity

/-- Counterexample to claim C7: with the aspect select absent from the
page, `filterAnnotations` does not no-op — reading
`getElementById('aspectFilter').value` dereferences `null` and throws
(result `none` in the embedding), even with everything else present. -/
theorem filterAnnotationsDom_missing_select_throws :
    GeneDetail.filterAnnotationsDom none (some "all") [] true = none := rfl

/-- Claim C7 amended: the two autocomplete setup functions and the mode
controller's container guard no-op without throwing when their elements
are absent, and a missing table merely yields an empty row collection; but
`filterAnnotations` throws when either filter select or the count badge is
absent, and the visibility update throws when `matrix-inputs` is absent
while the guarded containers are present. -/
theorem missingElements_partial_safety :
    (∀ q i r : Bool, q = false ∨ i = false ∨ r = false →
      Autocomplete.setupTermAutocomplete q i r = some .noop)
    ∧ (∀ q r : Bool, q = false ∨ r = false →
      Autocomplete.setupGeneAutocomplete q r = some .noop)
    ∧ (∀ (tp gp mp glp : Bool) (cm : Option Similarity.FormMode)
        (f : Similarity.ModeForm), tp = false ∨ gp = false →
      Similarity.modeControllerInit tp gp mp glp cm f = some f)
    ∧ (∀ (es : Option String) (rows : List GeneDetail.AnnotationRow) (bp : Bool),
      GeneDetail.filterAnnotationsDom none es rows bp = none)
    ∧ (∀ (a : String) (rows : List GeneDetail.AnnotationRow) (bp : Bool),
      GeneDetail.filterAnnotationsDom (some a) none rows bp = none)
    ∧ (∀ (a e : String) (rows : List GeneDetail.AnnotationRow),
      GeneDetail.filterAnnotationsDom (some a) (some e) rows false = none)
    ∧ (∀ (m : Similarity.FormMode) (glp : Bool) (f : Similarity.ModeForm),
      Similarity.updateFormVisibility (some m) false glp f = none) := by
  refine ⟨?_, ?_, ?_, fun es rows bp => rfl, fun a rows bp => rfl,
    fun a e rows => rfl, ?_⟩
  · rintro q i r (rfl | rfl | rfl) <;>
      simp [Autocomplete.setupTermAutocomplete]
  · rintro q r (rfl | rfl) <;>
      simp [Autocomplete.setupGeneAutocomplete]
  · rintro tp gp mp glp cm f (rfl | rfl) <;>
      simp [Similarity.modeControllerInit]
  · intro m glp f
    cases m <;> rfl

/-- Witness for `missingElements_partial_safety`: a term autocomplete
setup with its query input absent returns without attaching anything, and
the controller guard with the term container absent returns the form
untouched. -/
theorem missingElements_partial_safety_witness :
    Autocomplete.setupTermAutocomplete false true true
        = some Autocomplete.SetupOutcome.noop
    ∧ Similarity.modeControllerInit false true true true none
        ⟨false, false, false, false, false, false⟩
      = some ⟨false, false, false, false, false, false⟩ :=
  ⟨missingElements_partial_safety.1 false true true (Or.inl rfl),
   missingElements_partial_safety.2.2.1 false true true true none
     ⟨false, false, false, false, false, false⟩ (Or.inl rfl)⟩
